import Mathlib

/-!
Verification of the pagination state engine of `gallery-paginator-view`
(`src/gallery-paginator-view/js/paginator-view.js`, `Y.PaginatorModel`).

JavaScript numbers are idealised as exact rationals (`ℚ`); attribute slots
that may hold JavaScript `null` are `Option ℚ` (with `none` for `null`).

The model is a YUI3 `Y.Model`, so attribute mutation goes through the YUI3
attribute pipeline, which we embed faithfully for the attributes involved:
  * `set(name, v)` fires the `nameChange` event: `on`-subscribers run first,
    receiving the raw requested value (before any validation); calling
    `preventDefault` cancels the whole set.
  * The event's default function then runs the attribute's `validator`
    (here always `Y.Lang.isNumber`) and a same-value check (a set whose new
    value strictly equals the stored primitive value does not store and does
    not notify `after`-subscribers).
  * `after`-subscribers run only when a new value was actually stored.
During `Y.Base` construction, initial attribute values from the constructor
configuration are applied directly (validator only, no change events), and
the `initializer` runs `_recalcPagnParams()` before any of the model's own
listeners (`_changePage`, `_recalcPagnParams`) are subscribed.
-/

set_option maxRecDepth 8000

/-- A JavaScript value passed to a setter: either an actual (finite) number,
or a non-numeric value carried together with its `ToNumber` coercion
(`none` meaning the coercion is `NaN`, e.g. `undefined`, `{}`, `"abc"`;
`some q` for values such as `null` (0) or numeric strings). -/
inductive JSVal where
  | num (q : ℚ)
  | nonNum (toNum : Option ℚ)
deriving DecidableEq, Repr

/-- `ToNumber` coercion used by JavaScript relational operators. -/
def JSVal.toNumber : JSVal → Option ℚ
  | .num q => some q
  | .nonNum c => c

/-- `Y.Lang.isNumber`: true exactly for actual (finite) numbers. -/
def JSVal.isNumber : JSVal → Bool
  | .num _ => true
  | .nonNum _ => false

/-- JavaScript `v < q` for a raw value `v`: comparison through `ToNumber`,
false whenever the coercion is `NaN`. -/
def jsLt (v : JSVal) (q : ℚ) : Bool :=
  match v.toNumber with
  | some a => decide (a < q)
  | none => false

/-- JavaScript `v > q` for a raw value `v`: comparison through `ToNumber`,
false whenever the coercion is `NaN`. -/
def jsGt (v : JSVal) (q : ℚ) : Bool :=
  match v.toNumber with
  | some a => decide (q < a)
  | none => false

/-- JavaScript truthiness of an attribute slot: `null` and `0` are falsy,
any other number is truthy. -/
def truthyQ : Option ℚ → Bool
  | none => false
  | some q => decide (q ≠ 0)

/-- The attribute state of a `Y.PaginatorModel` instance.
`npages` is the `_npages` placeholder behind the `totalPages` getter. -/
structure PagState where
  totalItems : Option ℚ
  itemsPerPage : Option ℚ
  page : ℚ
  lastPage : Option ℚ
  npages : Option ℚ
deriving DecidableEq, Repr

/-- JavaScript truncating division (`Math.trunc`, the coercion underlying
the `%` operator): floor for non-negative quotients, ceiling otherwise. -/
def jsTrunc (q : ℚ) : ℤ := if 0 ≤ q then ⌊q⌋ else ⌈q⌉

/-- JavaScript remainder `a % b` (sign of the dividend). -/
def jsMod (a b : ℚ) : ℚ := a - b * (jsTrunc (a / b) : ℤ)

/-- The page count computed by `_recalcPagnParams`:
`np = Math.floor(ni / nipp); if (ni % nipp > 0) np++;`. -/
def npCalc (ni nipp : ℚ) : ℚ :=
  ((⌊ni / nipp⌋ : ℤ) : ℚ) + (if 0 < jsMod ni nipp then 1 else 0)

/-- The `validp` flag computed by `_changePage` on a requested raw page
value `v` (the `on('pageChange')` subscriber sees the value before the
numeric validator runs):
`if (newPg < 1 || !totalPages || !itemsPerPage) validp = false;`
`if (totalPages && newPg > totalPages) validp = false;`. -/
def changePageValid (s : PagState) (v : JSVal) : Bool :=
  !(jsLt v 1 || !truthyQ s.npages || !truthyQ s.itemsPerPage)
    && !(truthyQ s.npages && jsGt v (s.npages.getD 0))

/-- `model.set('page', v)` with `_changePage` subscribed `on('pageChange')`:
if `_changePage` judges the request invalid it calls `e.preventDefault()`
and nothing changes; otherwise it first stores the previous page in
`lastPage` (`this.set('lastPage', e.prevVal)`), and then the default
function applies the `Y.Lang.isNumber` validator to the requested value and
stores it as `page` if it is numeric.  The boolean reports whether the page
value was actually stored. -/
def setPage (s : PagState) (v : JSVal) : PagState × Bool :=
  if changePageValid s v then
    let s1 := { s with lastPage := some s.page }
    match v with
    | .num n => ({ s1 with page := n }, true)
    | .nonNum _ => (s1, false)
  else (s, false)

/-- The guard of `_recalcPagnParams`:
`if ( ni && nipp && ni > 0 && nipp > 0 )`. -/
def recalcCond (s : PagState) : Bool :=
  truthyQ s.totalItems && truthyQ s.itemsPerPage
    && decide (0 < s.totalItems.getD 0) && decide (0 < s.itemsPerPage.getD 0)

/-- `_recalcPagnParams` as it runs after construction: on success it stores
the recomputed page count in `_npages` and then executes
`this.set('page', 1)`, which goes through the full `pageChange` pipeline
(including the `_changePage` subscriber).  Returns the method's boolean
result. -/
def recalcPagnParams (s : PagState) : PagState × Bool :=
  if recalcCond s then
    let s1 := { s with
      npages := some (npCalc (s.totalItems.getD 0) (s.itemsPerPage.getD 0)) }
    ((setPage s1 (JSVal.num 1)).1, true)
  else (s, false)

/-- `model.set('totalItems', v)`: the `Y.Lang.isNumber` validator silently
rejects non-numeric values; storing a numeric value equal to the current one
does not notify `after`-subscribers; otherwise the stored value changes and
the `after('totalItemsChange')` subscriber `_recalcPagnParams` runs.  The
boolean reports whether the validator accepted the value. -/
def setTotalItems (s : PagState) (v : JSVal) : PagState × Bool :=
  match v with
  | .num n =>
    if s.totalItems = some n then (s, true)
    else ((recalcPagnParams { s with totalItems := some n }).1, true)
  | .nonNum _ => (s, false)

/-- `model.set('itemsPerPage', v)`, symmetric to `setTotalItems`. -/
def setItemsPerPage (s : PagState) (v : JSVal) : PagState × Bool :=
  match v with
  | .num n =>
    if s.itemsPerPage = some n then (s, true)
    else ((recalcPagnParams { s with itemsPerPage := some n }).1, true)
  | .nonNum _ => (s, false)

/-- Initial value of a sizing attribute from the constructor configuration:
a provided numeric value is stored (validator passes), anything else leaves
the `null` default. -/
def initAttrVal : Option JSVal → Option ℚ
  | some (.num q) => some q
  | _ => none

/-- The attribute state right after the configured initial values are
applied, before the `initializer` body runs: `page` defaults to 1,
`lastPage` and `_npages` to `null`. -/
def initState (ti ipp : Option JSVal) : PagState :=
  { totalItems := initAttrVal ti, itemsPerPage := initAttrVal ipp,
    page := 1, lastPage := none, npages := none }

/-- `new Y.PaginatorModel({totalItems: ti, itemsPerPage: ipp})`: attributes
take their configured (validated) initial values, then the `initializer`
runs `_recalcPagnParams()` before `_changePage` is subscribed, so the
`set('page', 1)` inside it stores the page directly without touching
`lastPage`. -/
def construct (ti ipp : Option JSVal) : PagState :=
  if recalcCond (initState ti ipp) then
    { initState ti ipp with
      npages := some (npCalc ((initState ti ipp).totalItems.getD 0)
        ((initState ti ipp).itemsPerPage.getD 0)),
      page := 1 }
  else initState ti ipp

/-- `model.get('totalPages')`: the getter returns `this._npages`
(`null` until a successful recalculation). -/
def getTotalPages (s : PagState) : Option ℚ := s.npages

/-- `_getItemIndexStart`: `(page - 1) * itemsPerPage`
(`null` coerces to 0 in arithmetic). -/
def getItemIndexStart (s : PagState) : ℚ :=
  (s.page - 1) * s.itemsPerPage.getD 0

/-- `_getItemIndexEnd`:
`iend = itemIndexStart + itemsPerPage; return (iend > ni) ? ni : iend;`
(the raw `totalItems` value — possibly `null` — is returned when the
comparison, with `null` coerced to 0, holds). -/
def getItemIndexEnd (s : PagState) : Option ℚ :=
  let iend := getItemIndexStart s + s.itemsPerPage.getD 0
  if iend > s.totalItems.getD 0 then s.totalItems else some iend

/-- One externally performed mutator call on the model. -/
inductive Op where
  | setTotal (v : JSVal)
  | setPerPage (v : JSVal)
  | setPg (v : JSVal)
deriving DecidableEq, Repr

/-- Apply one mutator call to a state. -/
def applyOp (s : PagState) : Op → PagState
  | .setTotal v => (setTotalItems s v).1
  | .setPerPage v => (setItemsPerPage s v).1
  | .setPg v => (setPage s v).1

/-- Run a sequence of mutator calls. -/
def run (s : PagState) (ops : List Op) : PagState := ops.foldl applyOp s

/-- Selector used to state facts uniformly about both sizing mutators:
`true` selects `setTotalItems`, `false` selects `setItemsPerPage`. -/
def setSizing (b : Bool) (s : PagState) (v : JSVal) : PagState × Bool :=
  if b then setTotalItems s v else setItemsPerPage s v

/-- The sizing attribute written by `setSizing b`. -/
def sizingField (b : Bool) (s : PagState) : Option ℚ :=
  if b then s.totalItems else s.itemsPerPage

/-- The other sizing attribute, read by the recalculation guard. -/
def otherSizingField (b : Bool) (s : PagState) : Option ℚ :=
  if b then s.itemsPerPage else s.totalItems

/-- The state with the sizing attribute selected by `b` set to `n`. -/
def sizingSet (b : Bool) (s : PagState) (n : ℚ) : PagState :=
  if b then { s with totalItems := some n } else { s with itemsPerPage := some n }

/-! ### Basic lemmas about the embedded operations -/

theorem changePageValid_num_intro (s : PagState) (n tp ip : ℚ)
    (h1 : s.npages = some tp) (h2 : s.itemsPerPage = some ip)
    (h3 : tp ≠ 0) (h4 : ip ≠ 0) (h5 : 1 ≤ n) (h6 : n ≤ tp) :
    changePageValid s (.num n) = true := by
  simp [changePageValid, jsLt, jsGt, JSVal.toNumber, truthyQ, h1, h2, h3, h4]
  exact ⟨h5, h6⟩

theorem changePageValid_num_elim (s : PagState) (n : ℚ)
    (h : changePageValid s (.num n) = true) :
    1 ≤ n ∧ ∃ tp, s.npages = some tp ∧ tp ≠ 0 ∧ n ≤ tp ∧
      ∃ ip, s.itemsPerPage = some ip ∧ ip ≠ 0 := by
  rcases hnp : s.npages with _ | tp
  · simp [changePageValid, truthyQ, hnp] at h
  rcases hip : s.itemsPerPage with _ | ip
  · simp [changePageValid, truthyQ, hnp, hip] at h
  simp [changePageValid, jsLt, jsGt, JSVal.toNumber, truthyQ, hnp, hip] at h
  obtain ⟨⟨⟨hn1, htp0⟩, hip0⟩, hor⟩ := h
  exact ⟨hn1, tp, rfl, htp0, hor.resolve_left htp0, ip, rfl, hip0⟩

theorem setPage_of_valid_num {s : PagState} {n : ℚ}
    (h : changePageValid s (.num n) = true) :
    setPage s (.num n) = ({ s with lastPage := some s.page, page := n }, true) := by
  simp [setPage, h]

theorem setPage_of_invalid {s : PagState} {v : JSVal}
    (h : changePageValid s v = false) : setPage s v = (s, false) := by
  simp [setPage, h]

theorem setPage_num_rejected (s : PagState) (n : ℚ)
    (h : (setPage s (.num n)).2 = false) : setPage s (.num n) = (s, false) := by
  by_cases hv : changePageValid s (.num n) = true
  · rw [setPage_of_valid_num hv] at h; simp at h
  · exact setPage_of_invalid (Bool.not_eq_true _ ▸ hv)

theorem setPage_rejected_page (s : PagState) (v : JSVal)
    (h : (setPage s v).2 = false) : ((setPage s v).1).page = s.page := by
  by_cases hv : changePageValid s v = true
  · cases v with
    | num n => rw [setPage_of_valid_num hv] at h; simp at h
    | nonNum c => simp [setPage, hv]
  · rw [setPage_of_invalid (Bool.not_eq_true _ ▸ hv)]

/-! ### The page-count formula is ceiling division -/

theorem jsMod_eq_mul_fract {a b : ℚ} (ha : 0 < a) (hb : 0 < b) :
    jsMod a b = b * (a / b - ⌊a / b⌋) := by
  have hq : 0 ≤ a / b := le_of_lt (div_pos ha hb)
  have hb0 : b ≠ 0 := ne_of_gt hb
  unfold jsMod jsTrunc
  rw [if_pos hq, mul_sub, mul_div_cancel₀ a hb0]

theorem jsMod_pos_iff {a b : ℚ} (ha : 0 < a) (hb : 0 < b) :
    0 < jsMod a b ↔ (⌊a / b⌋ : ℚ) ≠ a / b := by
  rw [jsMod_eq_mul_fract ha hb]
  constructor
  · intro h heq
    rw [heq, sub_self, mul_zero] at h
    exact lt_irrefl 0 h
  · intro hne
    have hlt : (⌊a / b⌋ : ℚ) < a / b := lt_of_le_of_ne (Int.floor_le _) hne
    have : 0 < a / b - ⌊a / b⌋ := sub_pos.2 hlt
    exact mul_pos hb this

theorem npCalc_eq_ceil {a b : ℚ} (ha : 0 < a) (hb : 0 < b) :
    npCalc a b = ((⌈a / b⌉ : ℤ) : ℚ) := by
  by_cases hq : (⌊a / b⌋ : ℚ) = a / b
  · have h0 : ¬ 0 < jsMod a b := by
      rw [jsMod_pos_iff ha hb]
      exact not_not_intro hq
    have hceil : ⌈a / b⌉ = ⌊a / b⌋ := by
      conv_lhs => rw [← hq]
      exact Int.ceil_intCast _
    rw [npCalc, if_neg h0, add_zero, hceil]
  · have h1 : 0 < jsMod a b := (jsMod_pos_iff ha hb).2 hq
    have hlt : (⌊a / b⌋ : ℚ) < a / b := lt_of_le_of_ne (Int.floor_le _) hq
    have hceil : ⌈a / b⌉ = ⌊a / b⌋ + 1 := by
      refine le_antisymm (Int.ceil_le.2 ?_) (Int.add_one_le_iff.2 ?_)
      · push_cast
        exact (Int.lt_floor_add_one (a / b)).le
      · have h2 : (⌊a / b⌋ : ℚ) < (⌈a / b⌉ : ℚ) :=
          lt_of_lt_of_le hlt (Int.le_ceil _)
        exact_mod_cast h2
    rw [npCalc, if_pos h1, hceil]
    push_cast
    ring

theorem npCalc_ge_one {a b : ℚ} (ha : 0 < a) (hb : 0 < b) : 1 ≤ npCalc a b := by
  rw [npCalc_eq_ceil ha hb]
  have h : 0 < ⌈a / b⌉ := Int.ceil_pos.2 (div_pos ha hb)
  exact_mod_cast h

/-! ### Case analysis for `_recalcPagnParams` and the sizing setters -/

theorem recalcCond_iff (s : PagState) :
    recalcCond s = true ↔
      ∃ a b, s.totalItems = some a ∧ s.itemsPerPage = some b ∧ 0 < a ∧ 0 < b := by
  rcases hti : s.totalItems with _ | a <;> rcases hip : s.itemsPerPage with _ | b <;>
    simp [recalcCond, truthyQ, hti, hip]
  intro hb ha
  exact ⟨ne_of_gt ha, ne_of_gt hb⟩

theorem recalcPagnParams_fail {s : PagState} (h : recalcCond s = false) :
    recalcPagnParams s = (s, false) := by
  simp [recalcPagnParams, h]

theorem recalcPagnParams_success {s : PagState} {a b : ℚ}
    (h1 : s.totalItems = some a) (h2 : s.itemsPerPage = some b)
    (ha : 0 < a) (hb : 0 < b) :
    recalcPagnParams s =
      ({ s with npages := some (npCalc a b), page := 1, lastPage := some s.page },
       true) := by
  have hc : recalcCond s = true := (recalcCond_iff s).2 ⟨a, b, h1, h2, ha, hb⟩
  have hget1 : s.totalItems.getD 0 = a := by rw [h1]; rfl
  have hget2 : s.itemsPerPage.getD 0 = b := by rw [h2]; rfl
  have hnp := npCalc_ge_one ha hb
  have hv : changePageValid
      { s with npages := some (npCalc a b) } (.num 1) = true := by
    refine changePageValid_num_intro _ 1 (npCalc a b) b rfl h2 ?_ ?_ le_rfl hnp
    · exact ne_of_gt (lt_of_lt_of_le one_pos hnp)
    · exact ne_of_gt hb
  rw [recalcPagnParams, if_pos hc, hget1, hget2]
  show ((setPage { s with npages := some (npCalc a b) } (JSVal.num 1)).1, true) = _
  rw [setPage_of_valid_num hv]

theorem setPage_nonNum_valid {s : PagState} {c : Option ℚ}
    (hv : changePageValid s (.nonNum c) = true) :
    setPage s (.nonNum c) = ({ s with lastPage := some s.page }, false) := by
  simp [setPage, hv]

theorem setTotalItems_num_same {s : PagState} {n : ℚ} (h : s.totalItems = some n) :
    setTotalItems s (.num n) = (s, true) := by
  simp [setTotalItems, h]

theorem setTotalItems_num_changed {s : PagState} {n : ℚ} (h : s.totalItems ≠ some n) :
    setTotalItems s (.num n) =
      ((recalcPagnParams { s with totalItems := some n }).1, true) := by
  simp [setTotalItems, h]

theorem setTotalItems_nonNum (s : PagState) (c : Option ℚ) :
    setTotalItems s (.nonNum c) = (s, false) := rfl

theorem setItemsPerPage_num_same {s : PagState} {n : ℚ} (h : s.itemsPerPage = some n) :
    setItemsPerPage s (.num n) = (s, true) := by
  simp [setItemsPerPage, h]

theorem setItemsPerPage_num_changed {s : PagState} {n : ℚ} (h : s.itemsPerPage ≠ some n) :
    setItemsPerPage s (.num n) =
      ((recalcPagnParams { s with itemsPerPage := some n }).1, true) := by
  simp [setItemsPerPage, h]

theorem setItemsPerPage_nonNum (s : PagState) (c : Option ℚ) :
    setItemsPerPage s (.nonNum c) = (s, false) := rfl

theorem initAttrVal_num (q : ℚ) : initAttrVal (some (.num q)) = some q := rfl

theorem construct_posNum (ti ipp : ℚ) (ha : 0 < ti) (hb : 0 < ipp) :
    construct (some (.num ti)) (some (.num ipp)) =
      { totalItems := some ti, itemsPerPage := some ipp,
        page := 1, lastPage := none, npages := some (npCalc ti ipp) } := by
  have hc : recalcCond (initState (some (.num ti)) (some (.num ipp))) = true :=
    (recalcCond_iff _).2 ⟨ti, ipp, rfl, rfl, ha, hb⟩
  rw [construct, if_pos hc]
  rfl

/-! ### The reachable-state invariant on `page` and `totalPages` -/

/-- Invariant: whenever `_npages` holds a value, it is at least 1 and the
stored page lies between 1 and it. -/
def validState (s : PagState) : Prop :=
  ∀ tp, s.npages = some tp → 1 ≤ tp ∧ 1 ≤ s.page ∧ s.page ≤ tp

theorem validState_of_eq_fields {s t : PagState} (h : validState s)
    (hnp : t.npages = s.npages) (hpg : t.page = s.page) : validState t := by
  intro tp htp
  rw [hnp] at htp
  have h2 := h tp htp
  rw [hpg]
  exact h2

theorem validState_setPage (s : PagState) (v : JSVal) (h : validState s) :
    validState ((setPage s v).1) := by
  by_cases hv : changePageValid s v = true
  · cases v with
    | num n =>
      rw [setPage_of_valid_num hv]
      obtain ⟨hn1, tp, hnp, _, hle, _, _, _⟩ := changePageValid_num_elim s n hv
      intro tp2 htp2
      have h2 : s.npages = some tp2 := htp2
      rw [hnp] at h2
      injection h2 with he
      subst he
      exact ⟨le_trans hn1 hle, hn1, hle⟩
    | nonNum c =>
      rw [setPage_nonNum_valid hv]
      exact validState_of_eq_fields h rfl rfl
  · rw [setPage_of_invalid (Bool.not_eq_true _ ▸ hv)]
    exact h

theorem validState_recalcPagnParams (s : PagState) (h : validState s) :
    validState ((recalcPagnParams s).1) := by
  by_cases hc : recalcCond s = true
  · obtain ⟨a, b, h1, h2, ha, hb⟩ := (recalcCond_iff s).1 hc
    rw [recalcPagnParams_success h1 h2 ha hb]
    intro tp htp
    have h3 : some (npCalc a b) = some tp := htp
    injection h3 with he
    subst he
    exact ⟨npCalc_ge_one ha hb, le_refl 1, npCalc_ge_one ha hb⟩
  · rw [recalcPagnParams_fail (Bool.not_eq_true _ ▸ hc)]
    exact h

theorem validState_setTotalItems (s : PagState) (v : JSVal) (h : validState s) :
    validState ((setTotalItems s v).1) := by
  cases v with
  | num n =>
    by_cases hsame : s.totalItems = some n
    · rw [setTotalItems_num_same hsame]
      exact h
    · rw [setTotalItems_num_changed hsame]
      exact validState_recalcPagnParams _ (validState_of_eq_fields h rfl rfl)
  | nonNum c =>
    rw [setTotalItems_nonNum]
    exact h

theorem validState_setItemsPerPage (s : PagState) (v : JSVal) (h : validState s) :
    validState ((setItemsPerPage s v).1) := by
  cases v with
  | num n =>
    by_cases hsame : s.itemsPerPage = some n
    · rw [setItemsPerPage_num_same hsame]
      exact h
    · rw [setItemsPerPage_num_changed hsame]
      exact validState_recalcPagnParams _ (validState_of_eq_fields h rfl rfl)
  | nonNum c =>
    rw [setItemsPerPage_nonNum]
    exact h

theorem validState_applyOp (s : PagState) (o : Op) (h : validState s) :
    validState (applyOp s o) := by
  cases o with
  | setTotal v => exact validState_setTotalItems s v h
  | setPerPage v => exact validState_setItemsPerPage s v h
  | setPg v => exact validState_setPage s v h

theorem validState_run (ops : List Op) (s : PagState) (h : validState s) :
    validState (run s ops) := by
  induction ops generalizing s with
  | nil => exact h
  | cons o rest ih => exact ih (applyOp s o) (validState_applyOp s o h)

theorem validState_construct (ti ipp : Option JSVal) :
    validState (construct ti ipp) := by
  rw [construct]
  by_cases hc : recalcCond (initState ti ipp) = true
  · rw [if_pos hc]
    obtain ⟨a, b, h1, h2, ha, hb⟩ := (recalcCond_iff _).1 hc
    intro tp htp
    have hget1 : (initState ti ipp).totalItems.getD 0 = a := by
      rw [h1]
      rfl
    have hget2 : (initState ti ipp).itemsPerPage.getD 0 = b := by
      rw [h2]
      rfl
    have h3 : some (npCalc ((initState ti ipp).totalItems.getD 0)
        ((initState ti ipp).itemsPerPage.getD 0)) = some tp := htp
    rw [hget1, hget2] at h3
    injection h3 with he
    subst he
    exact ⟨npCalc_ge_one ha hb, le_refl 1, npCalc_ge_one ha hb⟩
  · rw [if_neg hc]
    intro tp htp
    exact absurd htp (by simp [initState])

theorem recalcCond_false_of_not (s : PagState)
    (h : ¬ ∃ a b, s.totalItems = some a ∧ s.itemsPerPage = some b ∧ 0 < a ∧ 0 < b) :
    recalcCond s = false := by
  cases hrc : recalcCond s
  · rfl
  · exact absurd ((recalcCond_iff s).1 hrc) h

/-! ### Claims -/

/-- C1: for every `totalItems > 0` and `itemsPerPage > 0`, once both sizing
inputs are set (at construction, or through the two setters), the
`totalPages` getter returns `ceil(totalItems / itemsPerPage)` — the
floor-plus-remainder computation of `_recalcPagnParams` equals ceiling
division. -/
theorem getTotalPages_eq_ceil (ti ipp : ℚ) (ha : 0 < ti) (hb : 0 < ipp) :
    getTotalPages (construct (some (.num ti)) (some (.num ipp))) =
      some ((⌈ti / ipp⌉ : ℤ) : ℚ) ∧
    getTotalPages ((setItemsPerPage
        ((setTotalItems (construct none none) (.num ti)).1) (.num ipp)).1) =
      some ((⌈ti / ipp⌉ : ℤ) : ℚ) := by
  have hmain : npCalc ti ipp = ((⌈ti / ipp⌉ : ℤ) : ℚ) := npCalc_eq_ceil ha hb
  constructor
  · rw [construct_posNum ti ipp ha hb]
    show some (npCalc ti ipp) = _
    rw [hmain]
  · have e0 : construct none none = initState none none := rfl
    have hne1 : (initState none none).totalItems ≠ some ti := by
      simp [initState, initAttrVal]
    have hfail : recalcCond { initState none none with totalItems := some ti } =
        false := by
      refine recalcCond_false_of_not _ ?_
      rintro ⟨a2, b2, _, h2, _, _⟩
      exact Option.noConfusion h2
    have e1 : (setTotalItems (construct none none) (.num ti)).1 =
        { initState none none with totalItems := some ti } := by
      rw [e0, setTotalItems_num_changed hne1, recalcPagnParams_fail hfail]
    have hne2 : ({ initState none none with totalItems := some ti } :
        PagState).itemsPerPage ≠ some ipp := by
      simp [initState, initAttrVal]
    rw [e1, setItemsPerPage_num_changed hne2,
      recalcPagnParams_success rfl rfl ha hb]
    show some (npCalc ti ipp) = _
    rw [hmain]

/-- C1 witness: 500 items at 33 per page give 16 pages, both at
construction and through the setters. -/
theorem getTotalPages_eq_ceil_witness :
    getTotalPages (construct (some (.num 500)) (some (.num 33))) = some 16 ∧
    getTotalPages ((setItemsPerPage
        ((setTotalItems (construct none none) (.num 500)).1) (.num 33)).1) =
      some 16 := by
  have h := getTotalPages_eq_ceil 500 33 (by decide) (by decide)
  have hv : ((⌈(500 : ℚ) / 33⌉ : ℤ) : ℚ) = 16 := by with_unfolding_all decide
  exact ⟨h.1.trans (by rw [hv]), h.2.trans (by rw [hv])⟩

/-- C2: in every state reachable by construction and any sequence of
`setTotalItems`, `setItemsPerPage` and `setPage` calls, whenever the stored
page count is positive the stored page satisfies `1 ≤ page ≤ totalPages`;
and a rejected page request retains the prior page value. -/
theorem reachable_page_in_bounds (ti ipp : Option JSVal) (ops : List Op)
    (tp : ℚ) (v : JSVal)
    (h1 : (run (construct ti ipp) ops).npages = some tp) (h2 : 0 < tp)
    (h3 : (setPage (run (construct ti ipp) ops) v).2 = false) :
    (1 ≤ (run (construct ti ipp) ops).page ∧
      (run (construct ti ipp) ops).page ≤ tp) ∧
    ((setPage (run (construct ti ipp) ops) v).1).page =
      (run (construct ti ipp) ops).page := by
  have hv := validState_run ops (construct ti ipp) (validState_construct ti ipp)
  have h4 := hv tp h1
  exact ⟨⟨h4.2.1, h4.2.2⟩, setPage_rejected_page _ v h3⟩

/-- C2 witness: after constructing with 500 items at 50 per page and moving
to page 3, the page lies in `[1, 10]`, and the rejected request for page 20
retains page 3. -/
theorem reachable_page_in_bounds_witness :
    (1 ≤ (run (construct (some (.num 500)) (some (.num 50)))
        [Op.setPg (.num 3)]).page ∧
      (run (construct (some (.num 500)) (some (.num 50)))
        [Op.setPg (.num 3)]).page ≤ 10) ∧
    ((setPage (run (construct (some (.num 500)) (some (.num 50)))
        [Op.setPg (.num 3)]) (.num 20)).1).page =
      (run (construct (some (.num 500)) (some (.num 50)))
        [Op.setPg (.num 3)]).page :=
  reachable_page_in_bounds (some (.num 500)) (some (.num 50))
    [Op.setPg (.num 3)] 10 (.num 20)
    (by with_unfolding_all decide) (by decide) (by with_unfolding_all decide)

/-- C3 (code bug at the failing input): with totalItems=500,
itemsPerPage=50 (so totalPages=10), page=3 and lastPage=1, requesting a
non-numeric page value whose `ToNumber` coercion is NaN (e.g. `undefined`)
is rejected — `page` stays 3 — yet `_changePage` judges it valid (`NaN < 1`
and `NaN > 10` are both false), so it overwrites `lastPage` with 3 before
the numeric validator stops the page change.  This contradicts
`_changePage`'s own documentation that a non-numeric change is prevented,
which would leave `lastPage` untouched. -/
theorem setPage_nonNumeric_mutates_lastPage :
    (run (construct (some (.num 500)) (some (.num 50)))
        [Op.setPg (.num 3)]).lastPage = some 1 ∧
    (setPage (run (construct (some (.num 500)) (some (.num 50)))
        [Op.setPg (.num 3)]) (.nonNum none)).2 = false ∧
    (setPage (run (construct (some (.num 500)) (some (.num 50)))
        [Op.setPg (.num 3)]) (.nonNum none)).1.page = 3 ∧
    (setPage (run (construct (some (.num 500)) (some (.num 50)))
        [Op.setPg (.num 3)]) (.nonNum none)).1.lastPage = some 3 := by
  with_unfolding_all decide

/-- C4: in any state with a positive stored page count and a positive
`itemsPerPage`, `setPage(n)` for numeric `1 ≤ n ≤ totalPages` is accepted:
afterwards `page = n` and `lastPage` holds the pre-call page; and any
rejected numeric page request changes nothing at all. -/
theorem setPage_accepted (s s2 : PagState) (tp ip n m : ℚ)
    (h1 : s.npages = some tp) (h2 : 0 < tp)
    (h3 : s.itemsPerPage = some ip) (h4 : 0 < ip)
    (h5 : 1 ≤ n) (h6 : n ≤ tp)
    (h7 : (setPage s2 (.num m)).2 = false) :
    setPage s (.num n) = ({ s with lastPage := some s.page, page := n }, true) ∧
    setPage s2 (.num m) = (s2, false) :=
  ⟨setPage_of_valid_num (changePageValid_num_intro s n tp ip h1 h3
      (ne_of_gt h2) (ne_of_gt h4) h5 h6),
   setPage_num_rejected s2 m h7⟩

/-- C4 witness: on the freshly constructed 500/50 model, `setPage(3)` is
accepted, records `lastPage = 1` and sets `page = 3`, while the rejected
`setPage(20)` changes nothing. -/
theorem setPage_accepted_witness :
    setPage (construct (some (.num 500)) (some (.num 50))) (.num 3) =
      ({ construct (some (.num 500)) (some (.num 50)) with
          lastPage := some (construct (some (.num 500)) (some (.num 50))).page,
          page := 3 }, true) ∧
    setPage (construct (some (.num 500)) (some (.num 50))) (.num 20) =
      (construct (some (.num 500)) (some (.num 50)), false) :=
  setPage_accepted (construct (some (.num 500)) (some (.num 50)))
    (construct (some (.num 500)) (some (.num 50))) 10 50 3 20
    (by with_unfolding_all decide) (by decide)
    (by with_unfolding_all decide) (by decide)
    (by decide) (by decide) (by with_unfolding_all decide)

/-- C5 counterexample: with totalItems=500, itemsPerPage=50, page=3 and
lastPage=1, calling `setPage(3)` with the current page value leaves `page`
at 3 but overwrites `lastPage` with 3 (it was 1), so it is not a no-op on
`lastPage` as the claim states. -/
theorem setPage_same_value_counterexample :
    (run (construct (some (.num 500)) (some (.num 50)))
        [Op.setPg (.num 3)]).page = 3 ∧
    (run (construct (some (.num 500)) (some (.num 50)))
        [Op.setPg (.num 3)]).lastPage = some 1 ∧
    (setPage (run (construct (some (.num 500)) (some (.num 50)))
        [Op.setPg (.num 3)]) (.num 3)).1.page = 3 ∧
    (setPage (run (construct (some (.num 500)) (some (.num 50)))
        [Op.setPg (.num 3)]) (.num 3)).1.lastPage = some 3 ∧
    some (3 : ℚ) ≠ some (1 : ℚ) := by
  with_unfolding_all decide

/-- C5 (amended): while paging is active (positive stored page count,
positive `itemsPerPage`, page in range), `setPage` with the current page
value is accepted, leaves `page` unchanged, and sets `lastPage` to that
same current page value. -/
theorem setPage_same_value_amended (s : PagState) (tp ip : ℚ)
    (h1 : s.npages = some tp) (h2 : 0 < tp)
    (h3 : s.itemsPerPage = some ip) (h4 : 0 < ip)
    (h5 : 1 ≤ s.page) (h6 : s.page ≤ tp) :
    setPage s (.num s.page) = ({ s with lastPage := some s.page }, true) := by
  rw [setPage_of_valid_num (changePageValid_num_intro s s.page tp ip h1 h3
    (ne_of_gt h2) (ne_of_gt h4) h5 h6)]

/-- C5 amended witness: on the 500/50 model at page 3, `setPage(3)` keeps
page 3 and records `lastPage = 3`. -/
theorem setPage_same_value_amended_witness :
    setPage (run (construct (some (.num 500)) (some (.num 50)))
        [Op.setPg (.num 3)])
      (.num (run (construct (some (.num 500)) (some (.num 50)))
        [Op.setPg (.num 3)]).page) =
      ({ run (construct (some (.num 500)) (some (.num 50)))
          [Op.setPg (.num 3)] with
        lastPage := some (run (construct (some (.num 500)) (some (.num 50)))
          [Op.setPg (.num 3)]).page }, true) :=
  setPage_same_value_amended
    (run (construct (some (.num 500)) (some (.num 50))) [Op.setPg (.num 3)])
    10 50 (by with_unfolding_all decide) (by decide)
    (by with_unfolding_all decide) (by decide)
    (by with_unfolding_all decide) (by with_unfolding_all decide)

/-- C6 counterexample: on the 500/50 model at page 3, `setTotalItems(0)` is
accepted by the numeric validator, yet `page` stays 3 instead of resetting
to 1 (the recalculation guard fails for a zero total, so `set('page', 1)`
never runs). -/
theorem sizing_reset_counterexample :
    (run (construct (some (.num 500)) (some (.num 50)))
        [Op.setPg (.num 3)]).page = 3 ∧
    (setTotalItems (run (construct (some (.num 500)) (some (.num 50)))
        [Op.setPg (.num 3)]) (.num 0)).2 = true ∧
    (setTotalItems (run (construct (some (.num 500)) (some (.num 50)))
        [Op.setPg (.num 3)]) (.num 0)).1.page = 3 ∧
    (3 : ℚ) ≠ 1 := by
  with_unfolding_all decide

/-- C6 (amended): an accepted `setTotalItems` or `setItemsPerPage` call
resets `page` to 1 when it actually changes the stored value and both
sizing inputs are positive afterwards (so the recalculation succeeds);
otherwise — a same-value set (no `after`-event fires), a non-positive new
value, or a missing or non-positive other sizing input — `page` keeps its
prior value.  In both cases the numeric validator reports acceptance.
`b = true` selects `setTotalItems`, `b = false` selects `setItemsPerPage`. -/
theorem sizing_reset_amended (b : Bool) (s : PagState) (n m : ℚ) :
    ((sizingField b s ≠ some n ∧ 0 < n ∧
        otherSizingField b s = some m ∧ 0 < m) →
      (setSizing b s (.num n)).1.page = 1 ∧
        (setSizing b s (.num n)).2 = true) ∧
    ((sizingField b s = some n ∨ n ≤ 0 ∨
        (∀ k, otherSizingField b s = some k → k ≤ 0)) →
      (setSizing b s (.num n)).1.page = s.page ∧
        (setSizing b s (.num n)).2 = true) := by
  constructor
  · rintro ⟨hchg, hn, hother, hm⟩
    cases b with
    | true =>
      have hchg2 : s.totalItems ≠ some n := hchg
      have hother2 : s.itemsPerPage = some m := hother
      show (setTotalItems s (.num n)).1.page = 1 ∧
        (setTotalItems s (.num n)).2 = true
      rw [setTotalItems_num_changed hchg2,
        @recalcPagnParams_success { s with totalItems := some n } n m rfl hother2 hn hm]
      exact ⟨rfl, rfl⟩
    | false =>
      have hchg2 : s.itemsPerPage ≠ some n := hchg
      have hother2 : s.totalItems = some m := hother
      show (setItemsPerPage s (.num n)).1.page = 1 ∧
        (setItemsPerPage s (.num n)).2 = true
      rw [setItemsPerPage_num_changed hchg2,
        @recalcPagnParams_success { s with itemsPerPage := some n } m n hother2 rfl hm hn]
      exact ⟨rfl, rfl⟩
  · intro hrest
    cases b with
    | true =>
      show (setTotalItems s (.num n)).1.page = s.page ∧
        (setTotalItems s (.num n)).2 = true
      by_cases hsame : s.totalItems = some n
      · rw [setTotalItems_num_same hsame]
        exact ⟨rfl, rfl⟩
      · have hfail : recalcCond { s with totalItems := some n } = false := by
          refine recalcCond_false_of_not _ ?_
          rintro ⟨a2, b2, ha2, hb2, hpa, hpb⟩
          have ha3 : some n = some a2 := ha2
          injection ha3 with he
          subst he
          rcases hrest with hsame2 | hn2 | hk
          · exact hsame hsame2
          · exact absurd hpa (not_lt.2 hn2)
          · have hb3 : s.itemsPerPage = some b2 := hb2
            exact absurd hpb (not_lt.2 (hk b2 hb3))
        rw [setTotalItems_num_changed hsame, recalcPagnParams_fail hfail]
        exact ⟨rfl, rfl⟩
    | false =>
      show (setItemsPerPage s (.num n)).1.page = s.page ∧
        (setItemsPerPage s (.num n)).2 = true
      by_cases hsame : s.itemsPerPage = some n
      · rw [setItemsPerPage_num_same hsame]
        exact ⟨rfl, rfl⟩
      · have hfail : recalcCond { s with itemsPerPage := some n } = false := by
          refine recalcCond_false_of_not _ ?_
          rintro ⟨a2, b2, ha2, hb2, hpa, hpb⟩
          have hb3 : some n = some b2 := hb2
          injection hb3 with he
          subst he
          rcases hrest with hsame2 | hn2 | hk
          · exact hsame hsame2
          · exact absurd hpb (not_lt.2 hn2)
          · have ha3 : s.totalItems = some a2 := ha2
            exact absurd hpa (not_lt.2 (hk a2 ha3))
        rw [setItemsPerPage_num_changed hsame, recalcPagnParams_fail hfail]
        exact ⟨rfl, rfl⟩

/-- C6 amended witness: on the 500/50 model at page 3, `setTotalItems(120)`
changes the value and the recalculation succeeds, so the page resets to 1;
`setTotalItems(0)` (non-positive) and `setTotalItems(500)` (same value) are
both accepted but leave the page at its prior value 3. -/
theorem sizing_reset_amended_witness :
    ((setSizing true (run (construct (some (.num 500)) (some (.num 50)))
        [Op.setPg (.num 3)]) (.num 120)).1.page = 1 ∧
      (setSizing true (run (construct (some (.num 500)) (some (.num 50)))
        [Op.setPg (.num 3)]) (.num 120)).2 = true) ∧
    ((setSizing true (run (construct (some (.num 500)) (some (.num 50)))
        [Op.setPg (.num 3)]) (.num 0)).1.page =
        (run (construct (some (.num 500)) (some (.num 50)))
          [Op.setPg (.num 3)]).page ∧
      (setSizing true (run (construct (some (.num 500)) (some (.num 50)))
        [Op.setPg (.num 3)]) (.num 0)).2 = true) ∧
    ((setSizing true (run (construct (some (.num 500)) (some (.num 50)))
        [Op.setPg (.num 3)]) (.num 500)).1.page =
        (run (construct (some (.num 500)) (some (.num 50)))
          [Op.setPg (.num 3)]).page ∧
      (setSizing true (run (construct (some (.num 500)) (some (.num 50)))
        [Op.setPg (.num 3)]) (.num 500)).2 = true) :=
  ⟨(sizing_reset_amended true
      (run (construct (some (.num 500)) (some (.num 50))) [Op.setPg (.num 3)])
      120 50).1
    ⟨by with_unfolding_all decide, by decide, by with_unfolding_all decide,
      by decide⟩,
   (sizing_reset_amended true
      (run (construct (some (.num 500)) (some (.num 50))) [Op.setPg (.num 3)])
      0 0).2 (Or.inr (Or.inl (by decide))),
   (sizing_reset_amended true
      (run (construct (some (.num 500)) (some (.num 50))) [Op.setPg (.num 3)])
      500 0).2 (Or.inl (by with_unfolding_all decide))⟩

/-- C7: with both sizing inputs set to positive numbers and the page in
range, `getItemIndexStart()` returns `(page - 1) * itemsPerPage` and
`getItemIndexEnd()` returns `min(itemIndexStart + itemsPerPage, totalItems)`. -/
theorem itemIndex_formulas (s : PagState) (ti ip tp : ℚ)
    (h1 : s.totalItems = some ti) (h2 : 0 < ti)
    (h3 : s.itemsPerPage = some ip) (h4 : 0 < ip)
    (h5 : s.npages = some tp) (h6 : 1 ≤ s.page) (h7 : s.page ≤ tp) :
    getItemIndexStart s = (s.page - 1) * ip ∧
    getItemIndexEnd s = some (min ((s.page - 1) * ip + ip) ti) := by
  have hstart : getItemIndexStart s = (s.page - 1) * ip := by
    rw [getItemIndexStart, h3]
    rfl
  refine ⟨hstart, ?_⟩
  simp only [getItemIndexEnd, hstart, h1, h3, Option.getD_some]
  by_cases hgt : ti < (s.page - 1) * ip + ip
  · rw [if_pos hgt, min_eq_right (le_of_lt hgt)]
  · rw [if_neg hgt, min_eq_left (not_lt.1 hgt)]

/-- C7 witness: for totalItems=500, itemsPerPage=50 the index range is
`[100, 150)` on page 3 and `[450, 500)` on page 10. -/
theorem itemIndex_formulas_witness :
    getItemIndexStart (run (construct (some (.num 500)) (some (.num 50)))
      [Op.setPg (.num 3)]) = 100 ∧
    getItemIndexEnd (run (construct (some (.num 500)) (some (.num 50)))
      [Op.setPg (.num 3)]) = some 150 ∧
    getItemIndexStart (run (construct (some (.num 500)) (some (.num 50)))
      [Op.setPg (.num 10)]) = 450 ∧
    getItemIndexEnd (run (construct (some (.num 500)) (some (.num 50)))
      [Op.setPg (.num 10)]) = some 500 := by
  have h3 := itemIndex_formulas
    (run (construct (some (.num 500)) (some (.num 50))) [Op.setPg (.num 3)])
    500 50 10 (by with_unfolding_all decide) (by decide)
    (by with_unfolding_all decide) (by decide)
    (by with_unfolding_all decide) (by with_unfolding_all decide)
    (by with_unfolding_all decide)
  have h10 := itemIndex_formulas
    (run (construct (some (.num 500)) (some (.num 50))) [Op.setPg (.num 10)])
    500 50 10 (by with_unfolding_all decide) (by decide)
    (by with_unfolding_all decide) (by decide)
    (by with_unfolding_all decide) (by with_unfolding_all decide)
    (by with_unfolding_all decide)
  exact ⟨h3.1.trans (by with_unfolding_all decide),
    h3.2.trans (by with_unfolding_all decide),
    h10.1.trans (by with_unfolding_all decide),
    h10.2.trans (by with_unfolding_all decide)⟩

/-- C8 counterexample: `setTotalItems(-5)` on the 500/50 model raises no
error — the numeric-only validator accepts it, reporting success — and the
`totalItems` field IS mutated to -5, contradicting the claim that a
negative total fails with a validation error and mutates nothing. -/
theorem sizing_validation_counterexample :
    (setTotalItems (construct (some (.num 500)) (some (.num 50)))
      (.num (-5))).2 = true ∧
    (setTotalItems (construct (some (.num 500)) (some (.num 50)))
      (.num (-5))).1.totalItems = some (-5) ∧
    some (-5 : ℚ) ≠ some (500 : ℚ) := by
  with_unfolding_all decide

/-- C8 (amended): non-numeric inputs to either sizing setter are silently
rejected — no exception, no mutation, reported only by the validator
outcome; whereas a non-positive numeric value passes the numeric-only
validator and mutates just the targeted sizing field (the recalculation
guard fails, so page, lastPage and totalPages keep their prior values).
`b = true` selects `setTotalItems`, `b = false` selects `setItemsPerPage`. -/
theorem sizing_validation_amended (b : Bool) (s : PagState) (c : Option ℚ)
    (n : ℚ) (hn : n ≤ 0) (hchg : sizingField b s ≠ some n) :
    setSizing b s (.nonNum c) = (s, false) ∧
    (setSizing b s (.num n)).1 = sizingSet b s n ∧
    (setSizing b s (.num n)).2 = true := by
  cases b with
  | true =>
    have hchg2 : s.totalItems ≠ some n := hchg
    have hfail : recalcCond { s with totalItems := some n } = false := by
      refine recalcCond_false_of_not _ ?_
      rintro ⟨a2, b2, ha2, _, hpos, _⟩
      have : some n = some a2 := ha2
      injection this with he
      subst he
      exact absurd hpos (not_lt.2 hn)
    refine ⟨setTotalItems_nonNum s c, ?_, ?_⟩
    · show (setTotalItems s (.num n)).1 = { s with totalItems := some n }
      rw [setTotalItems_num_changed hchg2, recalcPagnParams_fail hfail]
    · show (setTotalItems s (.num n)).2 = true
      rw [setTotalItems_num_changed hchg2]
  | false =>
    have hchg2 : s.itemsPerPage ≠ some n := hchg
    have hfail : recalcCond { s with itemsPerPage := some n } = false := by
      refine recalcCond_false_of_not _ ?_
      rintro ⟨a2, b2, _, hb2, _, hpos⟩
      have : some n = some b2 := hb2
      injection this with he
      subst he
      exact absurd hpos (not_lt.2 hn)
    refine ⟨setItemsPerPage_nonNum s c, ?_, ?_⟩
    · show (setItemsPerPage s (.num n)).1 = { s with itemsPerPage := some n }
      rw [setItemsPerPage_num_changed hchg2, recalcPagnParams_fail hfail]
    · show (setItemsPerPage s (.num n)).2 = true
      rw [setItemsPerPage_num_changed hchg2]

/-- C8 amended witness: on the 500/50 model, a NaN-like non-numeric input
is ignored, while `setTotalItems(-5)` mutates only `totalItems`. -/
theorem sizing_validation_amended_witness :
    setSizing true (construct (some (.num 500)) (some (.num 50)))
      (.nonNum none) =
      (construct (some (.num 500)) (some (.num 50)), false) ∧
    (setSizing true (construct (some (.num 500)) (some (.num 50)))
      (.num (-5))).1 =
      sizingSet true (construct (some (.num 500)) (some (.num 50))) (-5) ∧
    (setSizing true (construct (some (.num 500)) (some (.num 50)))
      (.num (-5))).2 = true :=
  sizing_validation_amended true (construct (some (.num 500)) (some (.num 50)))
    none (-5) (by decide) (by with_unfolding_all decide)

/-- C9 counterexample: after constructing the 500/50 model (totalPages=10)
and then setting `totalItems` to 0 — an incomplete sizing configuration —
`getTotalPages()` still returns the stale 10: the failed recalculation
leaves `_npages` untouched rather than resetting it to 0/unset. -/
theorem getTotalPages_incomplete_counterexample :
    getTotalPages ((setTotalItems (construct (some (.num 500)) (some (.num 50)))
      (.num 0)).1) = some 10 ∧
    some (10 : ℚ) ≠ some (0 : ℚ) ∧
    some (10 : ℚ) ≠ (none : Option ℚ) := by
  with_unfolding_all decide

/-- C9 (amended): after construction with no sizing inputs
`getTotalPages()` is unset (`null`, a falsy value, not the number 0); and
changing a sizing input to a non-positive number leaves `getTotalPages()`
exactly as it was — in particular stale and positive if the configuration
was previously complete.  `b = true` selects `setTotalItems`, `b = false`
selects `setItemsPerPage`. -/
theorem getTotalPages_incomplete_amended (b : Bool) (s : PagState) (n : ℚ)
    (hn : n ≤ 0) :
    getTotalPages ((setSizing b s (.num n)).1) = getTotalPages s ∧
    getTotalPages (construct none none) = none := by
  refine ⟨?_, rfl⟩
  cases b with
  | true =>
    show getTotalPages ((setTotalItems s (.num n)).1) = getTotalPages s
    by_cases hsame : s.totalItems = some n
    · rw [setTotalItems_num_same hsame]
    · have hfail : recalcCond { s with totalItems := some n } = false := by
        refine recalcCond_false_of_not _ ?_
        rintro ⟨a2, b2, ha2, _, hpos, _⟩
        have : some n = some a2 := ha2
        injection this with he
        subst he
        exact absurd hpos (not_lt.2 hn)
      rw [setTotalItems_num_changed hsame, recalcPagnParams_fail hfail]
      rfl
  | false =>
    show getTotalPages ((setItemsPerPage s (.num n)).1) = getTotalPages s
    by_cases hsame : s.itemsPerPage = some n
    · rw [setItemsPerPage_num_same hsame]
    · have hfail : recalcCond { s with itemsPerPage := some n } = false := by
        refine recalcCond_false_of_not _ ?_
        rintro ⟨a2, b2, _, hb2, _, hpos⟩
        have : some n = some b2 := hb2
        injection this with he
        subst he
        exact absurd hpos (not_lt.2 hn)
      rw [setItemsPerPage_num_changed hsame, recalcPagnParams_fail hfail]
      rfl

/-- C9 amended witness: `setTotalItems(0)` on the 500/50 model leaves the
stored page count at its prior value, and the bare construction leaves it
unset. -/
theorem getTotalPages_incomplete_amended_witness :
    getTotalPages ((setSizing true (construct (some (.num 500))
      (some (.num 50))) (.num 0)).1) =
      getTotalPages (construct (some (.num 500)) (some (.num 50))) ∧
    getTotalPages (construct none none) = none :=
  getTotalPages_incomplete_amended true
    (construct (some (.num 500)) (some (.num 50))) 0 (by decide)

/-- C10: page values are not required to be integers — with paging active,
`setPage(n)` accepts a non-integer numeric `n` within `[1, totalPages]`
(validation checks only numericity and the range bounds), after which
`getItemIndexStart()` returns `(n - 1) * itemsPerPage`. -/
theorem setPage_nonIntegral (s : PagState) (tp ip n : ℚ)
    (h1 : s.npages = some tp) (h2 : 0 < tp)
    (h3 : s.itemsPerPage = some ip) (h4 : 0 < ip)
    (hden : n.den ≠ 1) (h5 : 1 ≤ n) (h6 : n ≤ tp) :
    setPage s (.num n) = ({ s with lastPage := some s.page, page := n }, true) ∧
    getItemIndexStart { s with lastPage := some s.page, page := n } =
      (n - 1) * ip := by
  refine ⟨setPage_of_valid_num (changePageValid_num_intro s n tp ip h1 h3
    (ne_of_gt h2) (ne_of_gt h4) h5 h6), ?_⟩
  show (n - 1) * (s.itemsPerPage.getD 0) = (n - 1) * ip
  rw [h3]
  rfl

/-- C10 witness: on the 500/33 model (16 pages), `setPage(5/2)` is accepted
and `getItemIndexStart()` returns the non-integral 99/2. -/
theorem setPage_nonIntegral_witness :
    setPage (construct (some (.num 500)) (some (.num 33))) (.num (5 / 2)) =
      ({ construct (some (.num 500)) (some (.num 33)) with
          lastPage := some (construct (some (.num 500)) (some (.num 33))).page,
          page := 5 / 2 }, true) ∧
    getItemIndexStart { construct (some (.num 500)) (some (.num 33)) with
        lastPage := some (construct (some (.num 500)) (some (.num 33))).page,
        page := (5 / 2 : ℚ) } = 99 / 2 := by
  have h := setPage_nonIntegral (construct (some (.num 500)) (some (.num 33)))
    16 33 (5 / 2) (by with_unfolding_all decide) (by decide)
    (by with_unfolding_all decide) (by decide)
    (by with_unfolding_all decide) (by with_unfolding_all decide)
    (by with_unfolding_all decide)
  exact ⟨h.1, h.2.trans (by with_unfolding_all decide)⟩
